import Mathlib

/-!
Shallow embedding of the Flappy Bird game core (state.ts, util.ts, observable.ts).

Conventions of the embedding:
* JS `number` fields holding continuous quantities (positions, velocities,
  times, multipliers, ids derived from times) become `ℚ`; arithmetic is exact
  rational arithmetic.
* Integer-valued counters (score, lives, countdown, gameCount, power-up
  counters, pipeSpawnIndex) and RNG seeds become `ℤ`.  The JS `%` operator on
  integers is truncated remainder, modelled by `Int.tmod`.
* JS arrays become `List`, `Array.prototype.find` becomes `List.find?`,
  optional chaining `pipe?.id` becomes a `match` on `Option`.
-/

namespace FlappyBird

/-- 2D vector (types.ts `Vec2`). -/
structure Vec2 where
  x : ℚ
  y : ℚ
deriving DecidableEq, Repr

/-- Bird entity (types.ts `Bird`). -/
structure Bird where
  pos : Vec2
  vel : Vec2
  radius : ℚ
deriving DecidableEq, Repr

/-- Pipe obstacle (types.ts `Pipe`). -/
structure Pipe where
  id : ℚ
  x : ℚ
  gapY : ℚ
  gapHeight : ℚ
  width : ℚ
  passed : Bool
deriving DecidableEq, Repr

/-- One recorded run (types.ts `GameHistory`). -/
structure GameHistory where
  birdPositions : List Vec2
  timestamp : ℚ
deriving DecidableEq, Repr

/-- Pipe spawn descriptor (types.ts `PipeData`). -/
structure PipeData where
  gapY : ℚ
  gapHeight : ℚ
  spawnTime : ℚ
deriving DecidableEq, Repr

/-- Power-up kind (types.ts `PowerUpType`). -/
inductive PowerUpType where
  | shrink
  | slowDown
deriving DecidableEq, Repr

/-- Power-up collectible (types.ts `PowerUp`). -/
structure PowerUp where
  id : ℚ
  type : PowerUpType
  pos : Vec2
  collected : Bool
deriving DecidableEq, Repr

/-- Complete game state (types.ts `State`). -/
structure State where
  bird : Bird
  pipes : List Pipe
  powerUps : List PowerUp
  score : ℤ
  lives : ℤ
  gameEnd : Bool
  gameWon : Bool
  gameStarted : Bool
  isPaused : Bool
  countdown : ℤ
  countdownTime : ℚ
  time : ℚ
  gameTime : ℚ
  pipeSpawnQueue : List PipeData
  originalPipeSpawnQueue : List PipeData
  gameHistory : List GameHistory
  currentRun : List Vec2
  ghostBirds : List Vec2
  gameCount : ℤ
  rngSeed : ℤ
  shrinkActive : Bool
  shrinkEndTime : ℚ
  slowDownActive : Bool
  slowDownEndTime : ℚ
  slowDownMultiplier : ℚ
  powerUpsSpawned : ℤ
  powerUpsCollected : ℤ
  pipeSpawnIndex : ℤ
  lastCollisionTime : ℚ
  lastCollisionPipeId : ℚ
deriving DecidableEq, Repr

/-! ### util.ts -/

namespace RNG

/-- util.ts `RNG.m = 0x80000000`. -/
def m : ℤ := 2147483648

/-- util.ts `RNG.a`. -/
def a : ℤ := 1103515245

/-- util.ts `RNG.c`. -/
def c : ℤ := 12345

/-- util.ts `RNG.hash`; JS `%` on integers is truncated remainder. -/
def hash (seed : ℤ) : ℤ := (a * seed + c).tmod m

/-- util.ts `RNG.scale01`: divides by `m - 1`. -/
def scale01 (h : ℤ) : ℚ := (h : ℚ) / ((m : ℚ) - 1)

end RNG

/-- util.ts `RandomResult`. -/
structure RandomResult where
  value : ℚ
  seed : ℤ
deriving DecidableEq, Repr

/-- util.ts `randomBetween`. -/
def randomBetween (currentSeed : ℤ) (minValue maxValue : ℚ) : RandomResult :=
  let nextSeed := RNG.hash currentSeed
  { value := RNG.scale01 nextSeed * (maxValue - minValue) + minValue
    seed := nextSeed }

/-- util.ts `clamp`. -/
def clamp (inputValue minBound maxBound : ℚ) : ℚ :=
  max minBound (min maxBound inputValue)

/-! ### state.ts constants -/

namespace Viewport

def CANVAS_WIDTH : ℚ := 600

def CANVAS_HEIGHT : ℚ := 400

end Viewport

namespace Birb

def WIDTH : ℚ := 42

def HEIGHT : ℚ := 30

def INITIAL_X : ℚ := Viewport.CANVAS_WIDTH * (3 / 10)

def INITIAL_Y : ℚ := Viewport.CANVAS_HEIGHT / 2

end Birb

namespace Constants

def PIPE_WIDTH : ℚ := 50

def PIPE_SPEED : ℚ := 3

def GRAVITY : ℚ := 1 / 2

def FLAP_STRENGTH : ℚ := -7

def BOUNCE_VELOCITY_MIN : ℚ := 4

def BOUNCE_VELOCITY_MAX : ℚ := 7

def COLLISION_COOLDOWN_MS : ℚ := 500

def TICK_RATE_MS : ℚ := 16

def INITIAL_LIVES : ℤ := 3

def OFFSCREEN_THRESHOLD : ℚ := -50

def COUNTDOWN_DURATION_MS : ℚ := 1000

def POWERUP_SIZE : ℚ := 20

def POWERUP_SPEED : ℚ := 1

def SHRINK_DURATION : ℚ := 6000

def SHRINK_SCALE : ℚ := 3 / 5

def SLOW_DOWN_DURATION : ℚ := 8000

def SLOW_DOWN_MIN_MULTIPLIER : ℚ := 3 / 10

end Constants

/-! ### state.ts entity factories and initial state -/

/-- state.ts `createBird`. -/
def createBird (x y : ℚ) : Bird :=
  { pos := { x := x, y := y }
    vel := { x := 0, y := 0 }
    radius := min Birb.WIDTH Birb.HEIGHT / 2 - 8 }

/-- state.ts `createPipe`. -/
def createPipe (id x gapY gapHeight : ℚ) : Pipe :=
  { id := id
    x := x
    gapY := gapY * Viewport.CANVAS_HEIGHT
    gapHeight := gapHeight * Viewport.CANVAS_HEIGHT
    width := Constants.PIPE_WIDTH
    passed := false }

/-- state.ts `initialState`. -/
def initialState : State :=
  { bird := createBird Birb.INITIAL_X Birb.INITIAL_Y
    pipes := []
    powerUps := []
    score := 0
    lives := Constants.INITIAL_LIVES
    gameEnd := false
    gameWon := false
    gameStarted := false
    isPaused := false
    countdown := 0
    countdownTime := 0
    time := 0
    gameTime := 0
    pipeSpawnQueue := []
    originalPipeSpawnQueue := []
    gameHistory := []
    currentRun := []
    ghostBirds := []
    gameCount := 0
    rngSeed := 123456789
    shrinkActive := false
    shrinkEndTime := 0
    slowDownActive := false
    slowDownEndTime := 0
    slowDownMultiplier := 1
    powerUpsSpawned := 0
    powerUpsCollected := 0
    pipeSpawnIndex := 0
    lastCollisionTime := 0
    lastCollisionPipeId := -1 }

/-- state.ts `createPowerUp`. -/
def createPowerUp (id : ℚ) (x y : ℚ) (type : PowerUpType) : PowerUp :=
  { id := id, type := type, pos := { x := x, y := y }, collected := false }

/-- state.ts `getCurrentBirdRadius`. -/
def getCurrentBirdRadius (state : State) : ℚ :=
  let baseRadius := min Birb.WIDTH Birb.HEIGHT / 2 - 8
  if state.shrinkActive then baseRadius * Constants.SHRINK_SCALE else baseRadius

/-- state.ts `getCurrentSpeedMultiplier`. -/
def getCurrentSpeedMultiplier (state : State) (currentTime : ℚ) : ℚ :=
  if !state.slowDownActive || decide (state.slowDownEndTime ≤ currentTime) then 1
  else
    let elapsed := currentTime - (state.slowDownEndTime - Constants.SLOW_DOWN_DURATION)
    let progress := elapsed / Constants.SLOW_DOWN_DURATION
    min 1 (Constants.SLOW_DOWN_MIN_MULTIPLIER * (1 - progress) + 1 * progress)

/-- state.ts `updatePowerUps`. -/
def updatePowerUps (powerUps : List PowerUp) : List PowerUp :=
  (powerUps.map fun pu =>
      { pu with pos := { pu.pos with x := pu.pos.x - Constants.POWERUP_SPEED } }).filter
    fun pu => decide (Constants.OFFSCREEN_THRESHOLD < pu.pos.x + Constants.POWERUP_SIZE)

/-- state.ts `checkPowerUpCollision`. -/
def checkPowerUpCollision (bird : Bird) (powerUp : PowerUp) : Bool :=
  let birdLeft := bird.pos.x - bird.radius
  let birdRight := bird.pos.x + bird.radius
  let birdTop := bird.pos.y - bird.radius
  let birdBottom := bird.pos.y + bird.radius
  let powerUpLeft := powerUp.pos.x
  let powerUpRight := powerUp.pos.x + Constants.POWERUP_SIZE
  let powerUpTop := powerUp.pos.y
  let powerUpBottom := powerUp.pos.y + Constants.POWERUP_SIZE
  decide (powerUpLeft < birdRight) && decide (birdLeft < powerUpRight) &&
    decide (powerUpTop < birdBottom) && decide (birdTop < powerUpBottom)

/-- state.ts result record of `shouldSpawnPowerUp`. -/
structure SpawnCheckResult where
  shouldSpawnShrink : Bool
  shouldSpawnSlowDown : Bool
  nextSeed : ℤ
deriving DecidableEq, Repr

/-- state.ts `shouldSpawnPowerUp`; note that it returns the seed unchanged. -/
def shouldSpawnPowerUp (state : State) (seed : ℤ) : SpawnCheckResult :=
  let gameTimeSeconds := state.gameTime / 1000
  let hasShrinkPowerUp :=
    state.powerUps.any fun p => decide (p.type = PowerUpType.shrink) && !p.collected
  let hasSlowDownPowerUp :=
    state.powerUps.any fun p => decide (p.type = PowerUpType.slowDown) && !p.collected
  { shouldSpawnShrink :=
      decide (10 ≤ gameTimeSeconds) && decide (gameTimeSeconds < 101 / 10) && !hasShrinkPowerUp
    shouldSpawnSlowDown :=
      decide (20 ≤ gameTimeSeconds) && decide (gameTimeSeconds < 201 / 10) && !hasSlowDownPowerUp
    nextSeed := seed }

/-- state.ts `updateBirdPosition`. -/
def updateBirdPosition (bird : Bird) : Bird :=
  let newVelY := bird.vel.y + Constants.GRAVITY
  let newPosY := bird.pos.y + newVelY
  { bird with
    pos := { x := bird.pos.x
             y := clamp newPosY bird.radius (Viewport.CANVAS_HEIGHT - bird.radius) }
    vel := { bird.vel with y := newVelY } }

/-- state.ts `flapBird`. -/
def flapBird (bird : Bird) : Bird :=
  { bird with vel := { bird.vel with y := Constants.FLAP_STRENGTH } }

/-- state.ts `bounceBird`. -/
def bounceBird (bird : Bird) (bounceVelocity : ℚ) : Bird :=
  { bird with vel := { bird.vel with y := bounceVelocity } }

/-- state.ts `movePipes` (curried in the source). -/
def movePipes (speedMultiplier : ℚ) (pipes : List Pipe) : List Pipe :=
  pipes.map fun pipe => { pipe with x := pipe.x - Constants.PIPE_SPEED * speedMultiplier }

/-- state.ts `removeOffscreenPipes`. -/
def removeOffscreenPipes (pipes : List Pipe) : List Pipe :=
  pipes.filter fun pipe => decide (Constants.OFFSCREEN_THRESHOLD < pipe.x + pipe.width)

/-- state.ts `checkBirdPipeCollision`. -/
def checkBirdPipeCollision (bird : Bird) (pipe : Pipe) : Bool :=
  let birdLeft := bird.pos.x - bird.radius
  let birdRight := bird.pos.x + bird.radius
  let birdTop := bird.pos.y - bird.radius
  let birdBottom := bird.pos.y + bird.radius
  let pipeLeft := pipe.x
  let pipeRight := pipe.x + pipe.width
  let gapTop := pipe.gapY - pipe.gapHeight / 2
  let gapBottom := pipe.gapY + pipe.gapHeight / 2
  if decide (pipeLeft < birdRight) && decide (birdLeft < pipeRight) then
    decide (birdTop < gapTop) || decide (gapBottom < birdBottom)
  else false

/-- state.ts `checkBoundaryCollision`. -/
def checkBoundaryCollision (bird : Bird) : Bool :=
  decide (bird.pos.y ≤ bird.radius) ||
    decide (Viewport.CANVAS_HEIGHT - bird.radius ≤ bird.pos.y)

/-- state.ts result record of `updateScore`. -/
structure ScoreResult where
  score : ℤ
  pipes : List Pipe
deriving DecidableEq, Repr

/-- The marking function applied to each pipe by `updateScore` (an inline
arrow function in the source). -/
def markPassedPipe (bird : Bird) (pipe : Pipe) : Pipe :=
  if !pipe.passed && decide (pipe.x + pipe.width < bird.pos.x) then
    { pipe with passed := true }
  else pipe

/-- state.ts `updateScore`; the source pairs `updatedPipes` with the input list
by array index, modelled here with `List.zip`. -/
def updateScore (bird : Bird) (pipes : List Pipe) (currentScore : ℤ) : ScoreResult :=
  let updatedPipes := pipes.map (markPassedPipe bird)
  let newlyPassedPipes :=
    (updatedPipes.zip pipes).filter fun pq => pq.1.passed && !pq.2.passed
  { score := currentScore + newlyPassedPipes.length
    pipes := updatedPipes }

/-- state.ts result record of `calculateBounce`. -/
structure BounceResult where
  bounceVelocity : ℚ
  nextSeed : ℤ
deriving DecidableEq, Repr

/-- state.ts `calculateBounce`. -/
def calculateBounce (bird : Bird) (pipes : List Pipe) (boundaryCollision : Bool)
    (seed : ℤ) : BounceResult :=
  let randomResult :=
    randomBetween seed Constants.BOUNCE_VELOCITY_MIN Constants.BOUNCE_VELOCITY_MAX
  if boundaryCollision then
    { bounceVelocity :=
        if decide (bird.pos.y ≤ bird.radius) then randomResult.value else -randomResult.value
      nextSeed := randomResult.seed }
  else
    match pipes.find? fun pipe => checkBirdPipeCollision bird pipe with
    | some collidedPipe =>
        { bounceVelocity :=
            if decide (bird.pos.y < collidedPipe.gapY) then randomResult.value
            else -randomResult.value
          nextSeed := randomResult.seed }
    | none => { bounceVelocity := randomResult.value, nextSeed := randomResult.seed }

/-- state.ts `spawnPowerUpIfNeeded` (a closure over `newTime` in the source,
here taking `newTime` explicitly). -/
def spawnPowerUpIfNeeded (newTime : ℚ) (existingPowerUps : List PowerUp)
    (shouldSpawn : Bool) (powerUpType : PowerUpType) (seed : ℤ) (idOffset : ℚ) :
    List PowerUp :=
  if !shouldSpawn then existingPowerUps
  else
    let middleStart := Viewport.CANVAS_HEIGHT * (33 / 100)
    let middleEnd := Viewport.CANVAS_HEIGHT * (67 / 100)
    let yPosition := randomBetween seed middleStart (middleEnd - Constants.POWERUP_SIZE)
    existingPowerUps ++
      [createPowerUp (newTime + idOffset) Viewport.CANVAS_WIDTH yPosition.value powerUpType]

/-! ### state.ts `Tick.apply`, decomposed binding by binding.
Each `tick…` definition mirrors one `const` binding of the source in order. -/

/-- Tick binding `newTime`. -/
def tickNewTime (s : State) : ℚ := s.time + Constants.TICK_RATE_MS

/-- Tick binding `newCountdown` of the countdown branch. -/
def tickNewCountdown (s : State) : ℤ :=
  max 0 (3 - ⌊(tickNewTime s - s.countdownTime) / Constants.COUNTDOWN_DURATION_MS⌋)

/-- Tick binding `newGameTime`. -/
def tickNewGameTime (s : State) : ℚ := s.gameTime + Constants.TICK_RATE_MS

/-- Tick binding `tempSlowDownActive`. -/
def tickTempSlowDownActive (s : State) : Bool :=
  s.slowDownActive && decide (tickNewTime s < s.slowDownEndTime)

/-- Tick binding `currentSpeedMultiplier`. -/
def tickCurrentSpeedMultiplier (s : State) : ℚ :=
  getCurrentSpeedMultiplier { s with slowDownActive := tickTempSlowDownActive s }
    (tickNewTime s)

/-- Tick binding `updatedBird` (position update, then radius override). -/
def tickUpdatedBird (s : State) : Bird :=
  { updateBirdPosition s.bird with radius := getCurrentBirdRadius s }

/-- Tick binding `movedPipes`. -/
def tickMovedPipes (s : State) : List Pipe :=
  movePipes (tickCurrentSpeedMultiplier s) s.pipes

/-- Tick binding `cleanedPipes`. -/
def tickCleanedPipes (s : State) : List Pipe := removeOffscreenPipes (tickMovedPipes s)

/-- Tick binding of the `updateScore` call. -/
def tickScoreResult (s : State) : ScoreResult :=
  updateScore (tickUpdatedBird s) (tickCleanedPipes s) s.score

/-- Tick binding `scoredPipes`. -/
def tickScoredPipes (s : State) : List Pipe := (tickScoreResult s).pipes

/-- Tick binding `updatedPowerUps`. -/
def tickUpdatedPowerUps (s : State) : List PowerUp := updatePowerUps s.powerUps

/-- Tick binding `collectedPowerUps`. -/
def tickCollectedPowerUps (s : State) : List PowerUp :=
  (tickUpdatedPowerUps s).filter fun powerUp =>
    !powerUp.collected && checkPowerUpCollision (tickUpdatedBird s) powerUp

/-- Tick binding `powerUpsAfterCollection`. -/
def tickPowerUpsAfterCollection (s : State) : List PowerUp :=
  ((tickUpdatedPowerUps s).map fun powerUp =>
      if (tickCollectedPowerUps s).any fun collected => decide (collected.id = powerUp.id) then
        { powerUp with collected := true }
      else powerUp).filter
    fun powerUp => !powerUp.collected

/-- Tick binding `shrinkActivated`. -/
def tickShrinkActivated (s : State) : Bool :=
  (tickCollectedPowerUps s).any fun powerUp => decide (powerUp.type = PowerUpType.shrink)

/-- Tick binding `newShrinkActive`. -/
def tickNewShrinkActive (s : State) : Bool :=
  tickShrinkActivated s || (s.shrinkActive && decide (tickNewTime s < s.shrinkEndTime))

/-- Tick binding `newShrinkEndTime`. -/
def tickNewShrinkEndTime (s : State) : ℚ :=
  if tickShrinkActivated s then tickNewTime s + Constants.SHRINK_DURATION
  else s.shrinkEndTime

/-- Tick binding `slowDownActivated`. -/
def tickSlowDownActivated (s : State) : Bool :=
  (tickCollectedPowerUps s).any fun powerUp => decide (powerUp.type = PowerUpType.slowDown)

/-- Tick binding `newSlowDownActive`. -/
def tickNewSlowDownActive (s : State) : Bool :=
  tickSlowDownActivated s || (s.slowDownActive && decide (tickNewTime s < s.slowDownEndTime))

/-- Tick binding `newSlowDownEndTime`. -/
def tickNewSlowDownEndTime (s : State) : ℚ :=
  if tickSlowDownActivated s then tickNewTime s + Constants.SLOW_DOWN_DURATION
  else s.slowDownEndTime

/-- Tick binding `finalSpeedMultiplier`. -/
def tickFinalSpeedMultiplier (s : State) : ℚ :=
  getCurrentSpeedMultiplier
    { s with slowDownActive := tickNewSlowDownActive s
             slowDownEndTime := tickNewSlowDownEndTime s }
    (tickNewTime s)

/-- Tick binding `newPowerUpsCollected`. -/
def tickNewPowerUpsCollected (s : State) : ℤ :=
  s.powerUpsCollected + (tickCollectedPowerUps s).length

/-- Tick binding `collidedPipe`. -/
def tickCollidedPipe (s : State) : Option Pipe :=
  (tickScoredPipes s).find? fun pipe => checkBirdPipeCollision (tickUpdatedBird s) pipe

/-- Tick binding `pipeCollision`. -/
def tickPipeCollision (s : State) : Bool := (tickCollidedPipe s).isSome

/-- Tick binding `boundaryCollision`. -/
def tickBoundaryCollision (s : State) : Bool := checkBoundaryCollision (tickUpdatedBird s)

/-- Tick binding `hasPhysicalCollision`. -/
def tickHasPhysicalCollision (s : State) : Bool :=
  tickPipeCollision s || tickBoundaryCollision s

/-- Tick binding `timeSinceLastCollision`. -/
def tickTimeSinceLastCollision (s : State) : ℚ := tickNewTime s - s.lastCollisionTime

/-- Tick binding `canTakeDamage`. -/
def tickCanTakeDamage (s : State) : Bool :=
  decide (Constants.COLLISION_COOLDOWN_MS ≤ tickTimeSinceLastCollision s)

/-- Tick binding `isDifferentPipe`; JS `collidedPipe?.id !== lastCollisionPipeId`
is true whenever no pipe collided (`undefined !== number`). -/
def tickIsDifferentPipe (s : State) : Bool :=
  match tickCollidedPipe s with
  | none => true
  | some p => !decide (p.id = s.lastCollisionPipeId)

/-- Tick binding `hasDamageCollision`. -/
def tickHasDamageCollision (s : State) : Bool :=
  tickHasPhysicalCollision s && (tickCanTakeDamage s || tickIsDifferentPipe s)

/-- Tick binding `newCurrentRun`. -/
def tickNewCurrentRun (s : State) : List Vec2 := s.currentRun ++ [(tickUpdatedBird s).pos]

/-- Tick binding `allPipesCleared`. -/
def tickAllPipesCleared (s : State) : Bool :=
  decide ((s.pipeSpawnQueue.length : ℤ) ≤ s.pipeSpawnIndex) &&
    decide ((tickScoredPipes s).length = 0)

/-- Tick binding `spawnResult`. -/
def tickSpawnResult (s : State) : SpawnCheckResult := shouldSpawnPowerUp s s.rngSeed

/-- Tick binding `powerUpsWithShrink`. -/
def tickPowerUpsWithShrink (s : State) : List PowerUp :=
  spawnPowerUpIfNeeded (tickNewTime s) (tickPowerUpsAfterCollection s)
    (tickSpawnResult s).shouldSpawnShrink PowerUpType.shrink (tickSpawnResult s).nextSeed 0

/-- Tick binding `workingPowerUps`. -/
def tickWorkingPowerUps (s : State) : List PowerUp :=
  spawnPowerUpIfNeeded (tickNewTime s) (tickPowerUpsWithShrink s)
    (tickSpawnResult s).shouldSpawnSlowDown PowerUpType.slowDown
    ((tickSpawnResult s).nextSeed + 1000) 1

/-- Tick binding `newPowerUpsSpawned`. -/
def tickNewPowerUpsSpawned (s : State) : ℤ :=
  s.powerUpsSpawned + (if (tickSpawnResult s).shouldSpawnShrink then 1 else 0) +
    (if (tickSpawnResult s).shouldSpawnSlowDown then 1 else 0)

/-- Tick binding `baseState`. -/
def tickBaseState (s : State) : State :=
  { s with
    bird := tickUpdatedBird s
    pipes := tickScoredPipes s
    powerUps := tickWorkingPowerUps s
    score := (tickScoreResult s).score
    time := tickNewTime s
    gameTime := tickNewGameTime s
    currentRun := tickNewCurrentRun s
    gameEnd := tickAllPipesCleared s
    gameWon := tickAllPipesCleared s
    shrinkActive := tickNewShrinkActive s
    shrinkEndTime := tickNewShrinkEndTime s
    slowDownActive := tickNewSlowDownActive s
    slowDownEndTime := tickNewSlowDownEndTime s
    slowDownMultiplier := tickFinalSpeedMultiplier s
    powerUpsSpawned := tickNewPowerUpsSpawned s
    powerUpsCollected := tickNewPowerUpsCollected s
    rngSeed := (tickSpawnResult s).nextSeed }

/-- Tick binding `bounceComputation`. -/
def tickBounceComputation (s : State) : BounceResult :=
  calculateBounce (tickUpdatedBird s) (tickScoredPipes s) (tickBoundaryCollision s)
    (tickBaseState s).rngSeed

/-- Tick binding `newLives` of the collision branch. -/
def tickNewLives (s : State) : ℤ :=
  if tickHasDamageCollision s then (tickBaseState s).lives - 1 else (tickBaseState s).lives

/-- The return value of Tick's collision branch.  The source also re-assigns
`slowDownActive`, `slowDownEndTime` and `slowDownMultiplier` to the values
already present in `baseState`; those redundant copies are omitted. -/
def tickCollisionResult (s : State) : State :=
  { tickBaseState s with
    bird := bounceBird (tickBaseState s).bird (tickBounceComputation s).bounceVelocity
    lives := tickNewLives s
    gameEnd := (tickBaseState s).gameEnd || decide (tickNewLives s ≤ 0)
    gameWon := (tickBaseState s).gameWon && decide (0 < tickNewLives s)
    rngSeed := (tickBounceComputation s).nextSeed
    lastCollisionTime :=
      if tickHasDamageCollision s then tickNewTime s else (tickBaseState s).lastCollisionTime
    lastCollisionPipeId :=
      if tickHasDamageCollision s then
        match tickCollidedPipe s with
        | some p => p.id
        | none => -1
      else (tickBaseState s).lastCollisionPipeId }

/-- state.ts `Tick.apply`. -/
def Tick.apply (currentState : State) : State :=
  if currentState.gameEnd || !currentState.gameStarted || currentState.isPaused then
    currentState
  else if 0 < currentState.countdown then
    { currentState with
      time := tickNewTime currentState
      countdown := tickNewCountdown currentState }
  else if tickHasPhysicalCollision currentState then tickCollisionResult currentState
  else tickBaseState currentState

/-! ### state.ts remaining actions -/

/-- state.ts `Restart.apply`. -/
def Restart.apply (currentState : State) : State :=
  let newGameHistory :=
    if 0 < currentState.currentRun.length then
      currentState.gameHistory ++
        [{ birdPositions := currentState.currentRun, timestamp := currentState.time }]
    else currentState.gameHistory
  { initialState with
    pipeSpawnQueue := currentState.originalPipeSpawnQueue
    originalPipeSpawnQueue := currentState.originalPipeSpawnQueue
    gameHistory := newGameHistory
    gameCount := currentState.gameCount + 1 }

/-- state.ts `Flap.apply`. -/
def Flap.apply (currentState : State) : State :=
  if currentState.gameEnd then Restart.apply currentState
  else if currentState.isPaused then currentState
  else if !currentState.gameStarted then
    { currentState with bird := flapBird currentState.bird, gameStarted := true, gameTime := 0 }
  else { currentState with bird := flapBird currentState.bird }

/-- state.ts `Pause.apply`. -/
def Pause.apply (currentState : State) : State :=
  if !currentState.gameStarted || currentState.gameEnd then currentState
  else if currentState.isPaused then
    { currentState with isPaused := false, countdown := 3, countdownTime := currentState.time }
  else { currentState with isPaused := true, countdown := 0, countdownTime := 0 }

/-- state.ts `SpawnPipe.apply` (pipe data and id are constructor arguments). -/
def SpawnPipe.apply (pipeData : PipeData) (pipeId : ℚ) (currentState : State) : State :=
  let newPipe := createPipe pipeId Viewport.CANVAS_WIDTH pipeData.gapY pipeData.gapHeight
  { currentState with
    pipes := currentState.pipes ++ [newPipe]
    pipeSpawnIndex := currentState.pipeSpawnIndex + 1 }

/-! ### observable.ts `calculateGhostPositions` -/

/-- observable.ts `calculateGhostPositions`.  The source maps each record to
the position at the frame when `animationFrame < birdPositions.length` and to
`null` otherwise, then filters out the nulls; `List.get?` is exactly that
conditional lookup and `filterMap id` drops the `none`s. -/
def calculateGhostPositions (historicalRecords : List GameHistory)
    (animationFrame : ℕ) (gameState : State) : List Vec2 :=
  if !gameState.gameStarted || historicalRecords.isEmpty then []
  else
    (historicalRecords.map fun pastGameRecord =>
        pastGameRecord.birdPositions.get? animationFrame).filterMap id

/-! ### Derived quantities used by the claims -/

/-- The number of pipes whose `passed` flag flips false to true across one
tick: pairs the moved, on-screen pipe list of the input state with the output
state's pipe list. -/
def tickFlipCount (s : State) : ℕ :=
  (((tickCleanedPipes s).zip (Tick.apply s).pipes).filter
    fun pq => !pq.1.passed && pq.2.passed).length

/-! ### Concrete states used by counterexamples and witnesses -/

/-- A running state whose `gameTime` sits in the shrink spawn window
(10 s ≤ gameTime < 10.1 s) with no power-up outstanding and no collision. -/
def c1SpawnState : State :=
  { initialState with gameStarted := true, gameTime := 10000 }

/-- A pipe whose gap band the bird pierces after the pipe moves 3 units left:
at x = 157 the bird bounding box [173,187]x[193.5,207.5] overlaps the pipe
band [157,207] and exits the gap band [250,350]. -/
def collidingPipe (i : ℚ) : Pipe :=
  { id := i, x := 160, gapY := 300, gapHeight := 100, width := 50, passed := false }

/-- The pipe `collidingPipe i` as it appears after this tick's movement,
which is the pipe `tickCollidedPipe` finds. -/
def collidingPipeMoved (i : ℚ) : Pipe :=
  { id := i, x := 157, gapY := 300, gapHeight := 100, width := 50, passed := false }

/-- A running state 200 ms after a damage collision against pipe 1
(`lastCollisionTime = 10000`, post-tick time 10200), whose only collision
this tick is with `collidingPipe i`, holding `l` lives. -/
def cPipeState (i : ℚ) (l : ℤ) : State :=
  { initialState with
    gameStarted := true
    time := 10184
    gameTime := 5000
    pipes := [collidingPipe i]
    lives := l
    lastCollisionTime := 10000
    lastCollisionPipeId := 1 }

/-- Collision with the different pipe 2 inside the cooldown window. -/
def c2DiffPipeState : State := cPipeState 2 3

/-- Collision with the same pipe 1 inside the cooldown window. -/
def c2SamePipeState : State := cPipeState 1 3

/-- Same-pipe collision inside the cooldown window with one life left. -/
def c4SamePipeState : State := cPipeState 1 1

/-- Different-pipe damage collision with one life left. -/
def c4DamageState : State := cPipeState 2 1

/-- A running state whose bird rests on the bottom boundary, 200 ms after a
previous boundary damage collision (`lastCollisionPipeId = -1`). -/
def c3BoundaryState : State :=
  { initialState with
    gameStarted := true
    time := 10184
    gameTime := 5000
    bird := { pos := { x := 180, y := 393 }, vel := { x := 0, y := 0 }, radius := 7 }
    lastCollisionTime := 10000
    lastCollisionPipeId := -1 }

/-- A started, unended run at time 10000 (spec section 8 concrete scenario). -/
def c7Start : State := { initialState with gameStarted := true, time := 10000 }

/-- The state after pressing pause on `c7Start`. -/
def c7Paused : State := Pause.apply c7Start

/-- The state after unpausing `c7Paused`. -/
def c7Unpaused : State := Pause.apply c7Paused

/-- Tick applied to the unpaused state with `time` set to 11000. -/
def c7T1 : State := Tick.apply { c7Unpaused with time := 11000 }

/-- Tick applied to the unpaused state with `time` set to 12000. -/
def c7T2 : State := Tick.apply { c7Unpaused with time := 12000 }

/-- Tick applied to the unpaused state with `time` set to 13000. -/
def c7T3 : State := Tick.apply { c7Unpaused with time := 13000 }

/-- The first Tick after the countdown of `c7T3` reached zero. -/
def c7T4 : State := Tick.apply c7T3

/-- A state with a non-empty recorded run, used to exercise `Restart`. -/
def c8State : State :=
  { initialState with
    currentRun := [{ x := 180, y := 200 }]
    time := 7000
    gameCount := 4
    originalPipeSpawnQueue := [{ gapY := 1 / 2, gapHeight := 3 / 10, spawnTime := 2000 }] }

/-- A completed run with two recorded positions. -/
def c9Entry : GameHistory :=
  { birdPositions := [{ x := 1, y := 2 }, { x := 3, y := 4 }], timestamp := 100 }

/-- A history containing exactly `c9Entry`. -/
def c9History : List GameHistory := [c9Entry]

/-- A started state for ghost computation. -/
def c9State : State := { initialState with gameStarted := true }

/-- A started initial state: empty schedule, no pipes on screen. -/
def c10State : State := { initialState with gameStarted := true }

/-! ### Helper lemmas about the decomposed Tick transition -/

lemma tick_apply_of_flags (s : State) (hEnd : s.gameEnd = false)
    (hStart : s.gameStarted = true) (hPaused : s.isPaused = false)
    (hCd : s.countdown = 0) :
    Tick.apply s =
      if tickHasPhysicalCollision s then tickCollisionResult s else tickBaseState s := by
  simp [Tick.apply, hEnd, hStart, hPaused, hCd]

lemma tickBaseState_lives (s : State) : (tickBaseState s).lives = s.lives := rfl

lemma tickBaseState_score (s : State) :
    (tickBaseState s).score = (tickScoreResult s).score := rfl

lemma tickBaseState_pipes (s : State) : (tickBaseState s).pipes = tickScoredPipes s := rfl

lemma tickBaseState_gameEnd (s : State) :
    (tickBaseState s).gameEnd = tickAllPipesCleared s := rfl

lemma tickBaseState_gameWon (s : State) :
    (tickBaseState s).gameWon = tickAllPipesCleared s := rfl

lemma tickBaseState_rngSeed (s : State) : (tickBaseState s).rngSeed = s.rngSeed := rfl

lemma tickCollisionResult_lives (s : State) :
    (tickCollisionResult s).lives = tickNewLives s := rfl

lemma tickCollisionResult_score (s : State) :
    (tickCollisionResult s).score = (tickScoreResult s).score := rfl

lemma tickCollisionResult_pipes (s : State) :
    (tickCollisionResult s).pipes = tickScoredPipes s := rfl

lemma tickCollisionResult_gameEnd (s : State) :
    (tickCollisionResult s).gameEnd =
      (tickAllPipesCleared s || decide (tickNewLives s ≤ 0)) := rfl

lemma tickCollisionResult_gameWon (s : State) :
    (tickCollisionResult s).gameWon =
      (tickAllPipesCleared s && decide (0 < tickNewLives s)) := rfl

lemma tickCollisionResult_lastCollisionTime (s : State) :
    (tickCollisionResult s).lastCollisionTime =
      if tickHasDamageCollision s then tickNewTime s else s.lastCollisionTime := rfl

lemma tickCollisionResult_lastCollisionPipeId (s : State) :
    (tickCollisionResult s).lastCollisionPipeId =
      if tickHasDamageCollision s then
        match tickCollidedPipe s with
        | some p => p.id
        | none => -1
      else s.lastCollisionPipeId := rfl

lemma updateScore_pipes (b : Bird) (l : List Pipe) (sc : ℤ) :
    (updateScore b l sc).pipes = l.map (markPassedPipe b) := rfl

lemma updateScore_score (b : Bird) (l : List Pipe) (sc : ℤ) :
    (updateScore b l sc).score =
      sc + (((l.map (markPassedPipe b)).zip l).filter
        fun pq => pq.1.passed && !pq.2.passed).length := rfl

lemma length_filter_zip_transpose (f : Pipe → Pipe) (l : List Pipe) :
    (((l.map f).zip l).filter fun pq => pq.1.passed && !pq.2.passed).length =
    ((l.zip (l.map f)).filter fun pq => !pq.1.passed && pq.2.passed).length := by
  induction l with
  | nil => rfl
  | cons a t ih =>
      cases hfa : (f a).passed <;> cases ha : a.passed <;>
        simp [List.filter_cons, hfa, ha, ih]

lemma tickScoreResult_score (s : State) :
    (tickScoreResult s).score =
      s.score + (((tickCleanedPipes s).zip (tickScoredPipes s)).filter
        fun pq => !pq.1.passed && pq.2.passed).length := by
  have h := length_filter_zip_transpose (markPassedPipe (tickUpdatedBird s))
    (tickCleanedPipes s)
  unfold tickScoredPipes
  rw [tickScoreResult, updateScore_score, updateScore_pipes, h]

lemma tick_apply_score (s : State) (hEnd : s.gameEnd = false)
    (hStart : s.gameStarted = true) (hPaused : s.isPaused = false)
    (hCd : s.countdown = 0) :
    (Tick.apply s).score = (tickScoreResult s).score := by
  rw [tick_apply_of_flags s hEnd hStart hPaused hCd]
  by_cases hp : tickHasPhysicalCollision s = true
  · rw [if_pos hp, tickCollisionResult_score]
  · rw [if_neg hp, tickBaseState_score]

lemma tick_apply_pipes (s : State) (hEnd : s.gameEnd = false)
    (hStart : s.gameStarted = true) (hPaused : s.isPaused = false)
    (hCd : s.countdown = 0) :
    (Tick.apply s).pipes = tickScoredPipes s := by
  rw [tick_apply_of_flags s hEnd hStart hPaused hCd]
  by_cases hp : tickHasPhysicalCollision s = true
  · rw [if_pos hp, tickCollisionResult_pipes]
  · rw [if_neg hp, tickBaseState_pipes]

/-! ### Evaluation lemmas for the concrete collision states -/

lemma cPipeState_scoredPipes (i : ℚ) (l : ℤ) :
    tickScoredPipes (cPipeState i l) = [collidingPipeMoved i] := by
  norm_num [tickScoredPipes, tickScoreResult, updateScore, markPassedPipe, tickCleanedPipes,
    tickMovedPipes, movePipes, removeOffscreenPipes, tickCurrentSpeedMultiplier,
    getCurrentSpeedMultiplier, tickTempSlowDownActive, tickUpdatedBird, updateBirdPosition,
    getCurrentBirdRadius, cPipeState, initialState, createBird, clamp, collidingPipe,
    collidingPipeMoved, Birb.WIDTH, Birb.HEIGHT, Birb.INITIAL_X, Birb.INITIAL_Y,
    Viewport.CANVAS_WIDTH, Viewport.CANVAS_HEIGHT, Constants.GRAVITY, Constants.PIPE_SPEED,
    Constants.PIPE_WIDTH, Constants.OFFSCREEN_THRESHOLD, min_def, max_def]

lemma cPipeState_collidedPipe (i : ℚ) (l : ℤ) :
    tickCollidedPipe (cPipeState i l) = some (collidingPipeMoved i) := by
  rw [tickCollidedPipe, cPipeState_scoredPipes]
  norm_num [List.find?, checkBirdPipeCollision, collidingPipeMoved, tickUpdatedBird,
    updateBirdPosition, getCurrentBirdRadius, cPipeState, initialState, createBird, clamp,
    Birb.WIDTH, Birb.HEIGHT, Birb.INITIAL_X, Birb.INITIAL_Y, Viewport.CANVAS_WIDTH,
    Viewport.CANVAS_HEIGHT, Constants.GRAVITY, min_def, max_def]

lemma cPipeState_boundary (i : ℚ) (l : ℤ) :
    tickBoundaryCollision (cPipeState i l) = false := by
  norm_num [tickBoundaryCollision, checkBoundaryCollision, tickUpdatedBird,
    updateBirdPosition, getCurrentBirdRadius, cPipeState, initialState, createBird, clamp,
    Birb.WIDTH, Birb.HEIGHT, Birb.INITIAL_X, Birb.INITIAL_Y, Viewport.CANVAS_WIDTH,
    Viewport.CANVAS_HEIGHT, Constants.GRAVITY, min_def, max_def]

lemma cPipeState_physical (i : ℚ) (l : ℤ) :
    tickHasPhysicalCollision (cPipeState i l) = true := by
  rw [tickHasPhysicalCollision, tickPipeCollision, cPipeState_collidedPipe]
  rfl

lemma cPipeState_canTakeDamage (i : ℚ) (l : ℤ) :
    tickCanTakeDamage (cPipeState i l) = false := by
  norm_num [tickCanTakeDamage, tickTimeSinceLastCollision, tickNewTime, cPipeState,
    initialState, Constants.TICK_RATE_MS, Constants.COLLISION_COOLDOWN_MS]

lemma cPipeState_window (i : ℚ) (l : ℤ) :
    (cPipeState i l).time + Constants.TICK_RATE_MS <
      (cPipeState i l).lastCollisionTime + Constants.COLLISION_COOLDOWN_MS := by
  norm_num [cPipeState, initialState, Constants.TICK_RATE_MS,
    Constants.COLLISION_COOLDOWN_MS]

lemma cPipeState_diff_isDifferent (l : ℤ) :
    tickIsDifferentPipe (cPipeState 2 l) = true := by
  unfold tickIsDifferentPipe
  rw [cPipeState_collidedPipe]
  norm_num [collidingPipeMoved, cPipeState, initialState]

lemma cPipeState_same_isDifferent (l : ℤ) :
    tickIsDifferentPipe (cPipeState 1 l) = false := by
  unfold tickIsDifferentPipe
  rw [cPipeState_collidedPipe]
  norm_num [collidingPipeMoved, cPipeState, initialState]

lemma cPipeState_diff_damage (l : ℤ) :
    tickHasDamageCollision (cPipeState 2 l) = true := by
  unfold tickHasDamageCollision
  rw [cPipeState_physical, cPipeState_canTakeDamage, cPipeState_diff_isDifferent]
  rfl

lemma cPipeState_same_damage (l : ℤ) :
    tickHasDamageCollision (cPipeState 1 l) = false := by
  unfold tickHasDamageCollision
  rw [cPipeState_physical, cPipeState_canTakeDamage, cPipeState_same_isDifferent]
  rfl

lemma c1SpawnState_physical : tickHasPhysicalCollision c1SpawnState = false := by
  norm_num [tickHasPhysicalCollision, tickPipeCollision, tickCollidedPipe, tickScoredPipes,
    tickScoreResult, updateScore, markPassedPipe, tickCleanedPipes, tickMovedPipes, movePipes,
    removeOffscreenPipes, tickBoundaryCollision, checkBoundaryCollision, tickUpdatedBird,
    updateBirdPosition, getCurrentBirdRadius, c1SpawnState, initialState, createBird, clamp,
    Birb.WIDTH, Birb.HEIGHT, Birb.INITIAL_X, Birb.INITIAL_Y, Viewport.CANVAS_WIDTH,
    Viewport.CANVAS_HEIGHT, Constants.GRAVITY, min_def, max_def, List.find?]

lemma c1SpawnState_shouldSpawnShrink :
    (tickSpawnResult c1SpawnState).shouldSpawnShrink = true := by
  norm_num [tickSpawnResult, shouldSpawnPowerUp, c1SpawnState, initialState]

lemma c1SpawnState_shouldSpawnSlowDown :
    (tickSpawnResult c1SpawnState).shouldSpawnSlowDown = false := by
  norm_num [tickSpawnResult, shouldSpawnPowerUp, c1SpawnState, initialState]

lemma tickBaseState_powerUpsSpawned (s : State) :
    (tickBaseState s).powerUpsSpawned = tickNewPowerUpsSpawned s := rfl

lemma tickBaseState_powerUps (s : State) :
    (tickBaseState s).powerUps = tickWorkingPowerUps s := rfl

/-! ### Claim C1 -/

/-- C1 counterexample: on the state `c1SpawnState` the Tick transition spawns
a shrink power-up (the spawn counter rises and the power-up list gains one
element) while the resulting `rngSeed` equals the input `rngSeed` and is not
its LCG successor, refuting the claim that every power-up spawn advances the
shared seed. -/
theorem C1_spawn_advances_seed_counterexample :
    (Tick.apply c1SpawnState).powerUpsSpawned = c1SpawnState.powerUpsSpawned + 1 ∧
    (Tick.apply c1SpawnState).powerUps.length = 1 ∧
    (Tick.apply c1SpawnState).rngSeed = c1SpawnState.rngSeed ∧
    ¬ (Tick.apply c1SpawnState).rngSeed = RNG.hash c1SpawnState.rngSeed := by
  have hb : Tick.apply c1SpawnState = tickBaseState c1SpawnState := by
    rw [tick_apply_of_flags c1SpawnState rfl rfl rfl rfl,
      if_neg (by rw [c1SpawnState_physical]; exact Bool.false_ne_true)]
  refine ⟨?_, ?_, ?_, ?_⟩
  · rw [hb, tickBaseState_powerUpsSpawned, tickNewPowerUpsSpawned,
      c1SpawnState_shouldSpawnShrink, c1SpawnState_shouldSpawnSlowDown]
    norm_num
  · rw [hb, tickBaseState_powerUps, tickWorkingPowerUps, tickPowerUpsWithShrink,
      c1SpawnState_shouldSpawnShrink, c1SpawnState_shouldSpawnSlowDown]
    simp [spawnPowerUpIfNeeded, tickPowerUpsAfterCollection, tickCollectedPowerUps,
      tickUpdatedPowerUps, updatePowerUps, c1SpawnState, initialState]
  · rw [hb, tickBaseState_rngSeed]
  · rw [hb, tickBaseState_rngSeed]
    show ¬ c1SpawnState.rngSeed = RNG.hash c1SpawnState.rngSeed
    decide

/-- C1 amended: spawning a power-up does not advance the shared RNG seed.
On every running, non-paused, non-countdown tick that spawns a shrink or
slow-down power-up and has no physical collision, the output `rngSeed` equals
the input `rngSeed`: `shouldSpawnPowerUp` returns the seed unchanged and the
next seed produced by the `randomBetween` call that places the power-up is
discarded. -/
theorem C1_spawn_leaves_seed_unchanged (s : State) (hEnd : s.gameEnd = false)
    (hStart : s.gameStarted = true) (hPaused : s.isPaused = false)
    (hCd : s.countdown = 0)
    (hSpawn : (tickSpawnResult s).shouldSpawnShrink = true ∨
      (tickSpawnResult s).shouldSpawnSlowDown = true)
    (hPhys : tickHasPhysicalCollision s = false) :
    (Tick.apply s).rngSeed = s.rngSeed := by
  rw [tick_apply_of_flags s hEnd hStart hPaused hCd,
    if_neg (by rw [hPhys]; exact Bool.false_ne_true), tickBaseState_rngSeed]

/-- C1 witness: the amended theorem applied to the concrete spawn state. -/
theorem C1_spawn_leaves_seed_unchanged_witness :
    (Tick.apply c1SpawnState).rngSeed = c1SpawnState.rngSeed :=
  C1_spawn_leaves_seed_unchanged c1SpawnState rfl rfl rfl rfl
    (Or.inl c1SpawnState_shouldSpawnShrink) c1SpawnState_physical

/-! ### Claim C2 -/

/-- C2: cooldown invariant.  First conjunct: for every running, non-paused,
non-countdown state whose only collision this tick is with the pipe recorded
in `lastCollisionPipeId`, and whose post-tick time is still inside the
`COLLISION_COOLDOWN_MS` window after `lastCollisionTime`, Tick does not
decrement `lives`.  Second conjunct: on the concrete state
`c2DiffPipeState`, inside that same window, a collision with a different pipe
does decrement `lives`. -/
theorem C2_cooldown_invariant :
    (∀ (s : State) (p : Pipe),
        s.gameEnd = false → s.gameStarted = true → s.isPaused = false →
        s.countdown = 0 →
        tickCollidedPipe s = some p → p.id = s.lastCollisionPipeId →
        tickBoundaryCollision s = false →
        s.time + Constants.TICK_RATE_MS <
          s.lastCollisionTime + Constants.COLLISION_COOLDOWN_MS →
        (Tick.apply s).lives = s.lives) ∧
    (c2DiffPipeState.time + Constants.TICK_RATE_MS <
        c2DiffPipeState.lastCollisionTime + Constants.COLLISION_COOLDOWN_MS ∧
      tickCanTakeDamage c2DiffPipeState = false ∧
      tickIsDifferentPipe c2DiffPipeState = true ∧
      (Tick.apply c2DiffPipeState).lives = c2DiffPipeState.lives - 1) := by
  constructor
  · intro s p hEnd hStart hPaused hCd hFind hId hB hT
    have hp : tickHasPhysicalCollision s = true := by
      unfold tickHasPhysicalCollision tickPipeCollision
      rw [hFind]
      rfl
    have hc : tickCanTakeDamage s = false := by
      unfold tickCanTakeDamage tickTimeSinceLastCollision tickNewTime
      simp only [decide_eq_false_iff_not]
      intro hle
      linarith
    have hd : tickIsDifferentPipe s = false := by
      unfold tickIsDifferentPipe
      rw [hFind]
      simp [hId]
    have hDam : tickHasDamageCollision s = false := by
      unfold tickHasDamageCollision
      rw [hc, hd, hp]
      rfl
    rw [tick_apply_of_flags s hEnd hStart hPaused hCd, if_pos hp,
      tickCollisionResult_lives]
    unfold tickNewLives
    rw [if_neg (by rw [hDam]; exact Bool.false_ne_true), tickBaseState_lives]
  · refine ⟨cPipeState_window 2 3, cPipeState_canTakeDamage 2 3,
      cPipeState_diff_isDifferent 3, ?_⟩
    show (Tick.apply (cPipeState 2 3)).lives = (cPipeState 2 3).lives - 1
    rw [tick_apply_of_flags (cPipeState 2 3) rfl rfl rfl rfl,
      if_pos (cPipeState_physical 2 3), tickCollisionResult_lives]
    unfold tickNewLives
    rw [if_pos (cPipeState_diff_damage 3), tickBaseState_lives]

/-- C2 witness: the universal conjunct applied to the concrete same-pipe
state `c2SamePipeState`, whose collided pipe after movement is
`collidingPipeMoved 1`. -/
theorem C2_cooldown_invariant_witness :
    (Tick.apply c2SamePipeState).lives = c2SamePipeState.lives :=
  C2_cooldown_invariant.1 c2SamePipeState (collidingPipeMoved 1) rfl rfl rfl rfl
    (cPipeState_collidedPipe 1 3) rfl (cPipeState_boundary 1 3) (cPipeState_window 1 3)

/-! ### Claim C3 -/

/-- C3: boundary collisions bypass the damage cooldown.  For every running,
non-paused, non-countdown state whose updated bird overlaps the top or bottom
canvas edge while colliding with no pipe, Tick registers a damage collision:
`lives` decrements, `lastCollisionTime` becomes the new time, and
`lastCollisionPipeId` becomes `-1` — regardless of how recently the previous
damage collision occurred, because the absent collided-pipe id always differs
from the stored id. -/
theorem C3_boundary_bypasses_cooldown (s : State) (hEnd : s.gameEnd = false)
    (hStart : s.gameStarted = true) (hPaused : s.isPaused = false)
    (hCd : s.countdown = 0)
    (hB : tickBoundaryCollision s = true)
    (hNoPipe : tickCollidedPipe s = none) :
    (Tick.apply s).lives = s.lives - 1 ∧
    (Tick.apply s).lastCollisionTime = tickNewTime s ∧
    (Tick.apply s).lastCollisionPipeId = -1 := by
  have hp : tickHasPhysicalCollision s = true := by
    unfold tickHasPhysicalCollision
    rw [hB, Bool.or_true]
  have hd : tickIsDifferentPipe s = true := by
    unfold tickIsDifferentPipe
    rw [hNoPipe]
  have hDam : tickHasDamageCollision s = true := by
    unfold tickHasDamageCollision
    rw [hp, hd, Bool.or_true, Bool.and_true]
  rw [tick_apply_of_flags s hEnd hStart hPaused hCd, if_pos hp]
  refine ⟨?_, ?_, ?_⟩
  · rw [tickCollisionResult_lives]
    unfold tickNewLives
    rw [if_pos hDam, tickBaseState_lives]
  · rw [tickCollisionResult_lastCollisionTime, if_pos hDam]
  · rw [tickCollisionResult_lastCollisionPipeId, if_pos hDam, hNoPipe]

lemma c3BoundaryState_boundary : tickBoundaryCollision c3BoundaryState = true := by
  norm_num [tickBoundaryCollision, checkBoundaryCollision, tickUpdatedBird,
    updateBirdPosition, getCurrentBirdRadius, c3BoundaryState, initialState, clamp,
    Birb.WIDTH, Birb.HEIGHT, Viewport.CANVAS_HEIGHT, Constants.GRAVITY, min_def, max_def]

lemma c3BoundaryState_collidedPipe : tickCollidedPipe c3BoundaryState = none := by
  rw [tickCollidedPipe]
  have h : tickScoredPipes c3BoundaryState = [] := rfl
  rw [h]
  rfl

/-- C3 witness: the theorem applied to `c3BoundaryState`, a bottom-edge
overlap occurring only 200 ms after a previous boundary damage collision. -/
theorem C3_boundary_bypasses_cooldown_witness :
    (Tick.apply c3BoundaryState).lives = c3BoundaryState.lives - 1 ∧
    (Tick.apply c3BoundaryState).lastCollisionTime = tickNewTime c3BoundaryState ∧
    (Tick.apply c3BoundaryState).lastCollisionPipeId = -1 :=
  C3_boundary_bypasses_cooldown c3BoundaryState rfl rfl rfl rfl
    c3BoundaryState_boundary c3BoundaryState_collidedPipe

/-! ### Claim C4 -/

/-- C4 counterexample: `c4SamePipeState` is running with `lives = 1` and an
active physical collision (with the same pipe as the last damage collision,
inside the cooldown window), yet the next tick leaves `lives = 1` and
`gameEnd = false`, refuting the claim for bare physical collisions. -/
theorem C4_game_over_counterexample :
    c4SamePipeState.lives = 1 ∧
    c4SamePipeState.gameEnd = false ∧
    c4SamePipeState.gameStarted = true ∧
    c4SamePipeState.isPaused = false ∧
    c4SamePipeState.countdown = 0 ∧
    tickHasPhysicalCollision c4SamePipeState = true ∧
    (Tick.apply c4SamePipeState).lives = 1 ∧
    (Tick.apply c4SamePipeState).gameEnd = false := by
  have ht : Tick.apply (cPipeState 1 1) = tickCollisionResult (cPipeState 1 1) := by
    rw [tick_apply_of_flags (cPipeState 1 1) rfl rfl rfl rfl,
      if_pos (cPipeState_physical 1 1)]
  have hl : tickNewLives (cPipeState 1 1) = 1 := by
    unfold tickNewLives
    rw [if_neg (by rw [cPipeState_same_damage 1]; exact Bool.false_ne_true),
      tickBaseState_lives]
    rfl
  have hcl : tickAllPipesCleared (cPipeState 1 1) = false := by
    unfold tickAllPipesCleared
    rw [cPipeState_scoredPipes 1 1]
    simp
  refine ⟨rfl, rfl, rfl, rfl, rfl, cPipeState_physical 1 1, ?_, ?_⟩
  · show (Tick.apply (cPipeState 1 1)).lives = 1
    rw [ht, tickCollisionResult_lives, hl]
  · show (Tick.apply (cPipeState 1 1)).gameEnd = false
    rw [ht, tickCollisionResult_gameEnd, hl, hcl]
    simp

/-- C4 amended: with `lives = 1` and an active damage collision (a physical
collision that passes the cooldown-or-different-pipe gate), the next tick
yields `lives = 0` and `gameEnd = true`. -/
theorem C4_game_over_transition (s : State) (hEnd : s.gameEnd = false)
    (hStart : s.gameStarted = true) (hPaused : s.isPaused = false)
    (hCd : s.countdown = 0)
    (hDam : tickHasDamageCollision s = true)
    (hLives : s.lives = 1) :
    (Tick.apply s).lives = 0 ∧ (Tick.apply s).gameEnd = true := by
  have hp : tickHasPhysicalCollision s = true := by
    have h := hDam
    simp only [tickHasDamageCollision, Bool.and_eq_true] at h
    exact h.1
  have hl : tickNewLives s = 0 := by
    unfold tickNewLives
    rw [if_pos hDam, tickBaseState_lives, hLives]
    decide
  rw [tick_apply_of_flags s hEnd hStart hPaused hCd, if_pos hp]
  refine ⟨?_, ?_⟩
  · rw [tickCollisionResult_lives, hl]
  · rw [tickCollisionResult_gameEnd, hl]
    simp

/-- C4 witness: the amended theorem applied to `c4DamageState`, a
different-pipe collision with one life left. -/
theorem C4_game_over_transition_witness :
    (Tick.apply c4DamageState).lives = 0 ∧ (Tick.apply c4DamageState).gameEnd = true :=
  C4_game_over_transition c4DamageState rfl rfl rfl rfl (cPipeState_diff_damage 1) rfl

/-! ### Claim C5 -/

/-- C5: score monotonicity.  First conjunct: the score never decreases under
any Tick.  Second conjunct: on every tick that actually simulates (running,
not paused, no countdown), the score increase equals exactly the number of
pipes whose `passed` flag is false in the moved, on-screen input pipe list
and true in the output pipe list — so an already-passed pipe contributes
zero further score. -/
theorem C5_score_monotonicity :
    (∀ s : State, s.score ≤ (Tick.apply s).score) ∧
    (∀ s : State, s.gameEnd = false → s.gameStarted = true → s.isPaused = false →
      s.countdown = 0 → (Tick.apply s).score = s.score + tickFlipCount s) := by
  constructor
  · intro s
    unfold Tick.apply
    by_cases hG : (s.gameEnd || !s.gameStarted || s.isPaused) = true
    · rw [if_pos hG]
    · rw [if_neg hG]
      by_cases hCd : 0 < s.countdown
      · rw [if_pos hCd]
      · rw [if_neg hCd]
        by_cases hp : tickHasPhysicalCollision s = true
        · rw [if_pos hp, tickCollisionResult_score, tickScoreResult_score]
          exact le_add_of_nonneg_right (Int.natCast_nonneg _)
        · rw [if_neg hp, tickBaseState_score, tickScoreResult_score]
          exact le_add_of_nonneg_right (Int.natCast_nonneg _)
  · intro s hEnd hStart hPaused hCd
    rw [tick_apply_score s hEnd hStart hPaused hCd, tickScoreResult_score]
    unfold tickFlipCount
    rw [tick_apply_pipes s hEnd hStart hPaused hCd]

/-- C5 witness: the exact-increase conjunct applied to a started initial
state. -/
theorem C5_score_monotonicity_witness :
    (Tick.apply c10State).score = c10State.score + tickFlipCount c10State :=
  C5_score_monotonicity.2 c10State rfl rfl rfl rfl

/-! ### Claim C6 -/

/-- C6 counterexample: the claim asserts the value always lies in the
half-open interval, strictly below `max`.  At seed 230538014 the LCG hash is
2147483647 = m - 1, `scale01` divides by `m - 1`, and `randomBetween` returns
exactly `max = 1`; and at the negative seed -1 the truncated remainder is
negative and the value falls below `min = 0`. -/
theorem C6_rng_range_counterexample :
    (randomBetween 230538014 0 1).value = 1 ∧ (randomBetween (-1) 0 1).value < 0 := by
  have h1 : RNG.hash 230538014 = 2147483647 := by decide
  have h2 : RNG.hash (-1) = -1103502900 := by decide
  constructor
  · show RNG.scale01 (RNG.hash 230538014) * (1 - 0) + 0 = 1
    rw [h1]
    norm_num [RNG.scale01, RNG.m]
  · show RNG.scale01 (RNG.hash (-1)) * (1 - 0) + 0 < 0
    rw [h2]
    norm_num [RNG.scale01, RNG.m]

/-- C6 amended: for every nonnegative integer seed and every `min < max`,
`randomBetween` returns a value in the closed interval `[min, max]` (the
upper bound is attained exactly when the hash equals m - 1, because
`scale01` divides by m - 1), and its next seed is the LCG hash of the input
seed; determinism holds definitionally, `randomBetween` being a pure
function. -/
theorem C6_rng_range (seed : ℤ) (hseed : 0 ≤ seed) (minValue maxValue : ℚ)
    (hlt : minValue < maxValue) :
    minValue ≤ (randomBetween seed minValue maxValue).value ∧
    (randomBetween seed minValue maxValue).value ≤ maxValue ∧
    (randomBetween seed minValue maxValue).seed = RNG.hash seed := by
  have hd : (0:ℤ) ≤ RNG.a * seed + RNG.c := by
    have h1 : (0:ℤ) ≤ RNG.a * seed := mul_nonneg (by norm_num [RNG.a]) hseed
    have h2 : (0:ℤ) ≤ RNG.c := by norm_num [RNG.c]
    linarith
  have h0 : (0:ℤ) ≤ RNG.hash seed := Int.tmod_nonneg _ hd
  have hm : RNG.hash seed < RNG.m :=
    Int.tmod_lt_of_pos (RNG.a * seed + RNG.c) (by norm_num [RNG.m])
  have hq0 : (0:ℚ) ≤ (RNG.hash seed : ℚ) := by exact_mod_cast h0
  have hq1 : (RNG.hash seed : ℚ) ≤ (RNG.m : ℚ) - 1 := by
    have h : RNG.hash seed ≤ RNG.m - 1 := by omega
    have h2 : ((RNG.hash seed : ℤ) : ℚ) ≤ ((RNG.m - 1 : ℤ) : ℚ) := by exact_mod_cast h
    push_cast at h2
    linarith
  have hden : (0:ℚ) < (RNG.m : ℚ) - 1 := by norm_num [RNG.m]
  have hs0 : (0:ℚ) ≤ RNG.scale01 (RNG.hash seed) :=
    div_nonneg hq0 (le_of_lt hden)
  have hs1 : RNG.scale01 (RNG.hash seed) ≤ 1 := by
    rw [RNG.scale01, div_le_one hden]
    exact hq1
  have hsub : (0:ℚ) ≤ maxValue - minValue := by linarith
  refine ⟨?_, ?_, rfl⟩
  · show minValue ≤ RNG.scale01 (RNG.hash seed) * (maxValue - minValue) + minValue
    nlinarith [mul_nonneg hs0 hsub]
  · show RNG.scale01 (RNG.hash seed) * (maxValue - minValue) + minValue ≤ maxValue
    nlinarith [mul_le_mul_of_nonneg_right hs1 hsub]

/-- C6 witness: the amended theorem applied to the initial seed with the
unit interval. -/
theorem C6_rng_range_witness :
    (0:ℚ) ≤ (randomBetween 123456789 0 1).value ∧
    (randomBetween 123456789 0 1).value ≤ 1 ∧
    (randomBetween 123456789 0 1).seed = RNG.hash 123456789 :=
  C6_rng_range 123456789 (by decide) 0 1 (by norm_num)

/-! ### Claim C7 -/

lemma tick_apply_countdown (s : State) (hEnd : s.gameEnd = false)
    (hStart : s.gameStarted = true) (hPaused : s.isPaused = false)
    (hCd : 0 < s.countdown) :
    Tick.apply s = { s with time := tickNewTime s, countdown := tickNewCountdown s } := by
  simp [Tick.apply, hEnd, hStart, hPaused, hCd]

lemma tick_apply_gameTime (s : State) (hEnd : s.gameEnd = false)
    (hStart : s.gameStarted = true) (hPaused : s.isPaused = false)
    (hCd : s.countdown = 0) :
    (Tick.apply s).gameTime = tickNewGameTime s := by
  rw [tick_apply_of_flags s hEnd hStart hPaused hCd]
  by_cases hp : tickHasPhysicalCollision s = true
  · rw [if_pos hp]
    rfl
  · rw [if_neg hp]
    rfl

lemma c7_tick_countdown (t : ℚ) :
    (Tick.apply { c7Unpaused with time := t }).countdown =
      max 0 (3 - ⌊(t + 16 - 10000) / 1000⌋) := by
  rw [tick_apply_countdown { c7Unpaused with time := t } rfl rfl rfl
    (by show (0:ℤ) < 3; decide)]
  show tickNewCountdown { c7Unpaused with time := t } = _
  norm_num [tickNewCountdown, tickNewTime, Constants.TICK_RATE_MS,
    Constants.COUNTDOWN_DURATION_MS, show c7Unpaused.countdownTime = 10000 from rfl]

/-- C7: the concrete pause and countdown sequence of spec section 8.
Starting a run at time 10000: pausing sets `isPaused` and clears the
countdown; unpausing clears `isPaused`, sets `countdown = 3` and records
`countdownTime = 10000`; ticking with `time` set to 11000, 12000 and 13000
yields countdown 2, 1 and 0 while `gameTime` stays 0 throughout; the first
tick after the countdown reaches zero raises `gameTime` above zero. -/
theorem C7_pause_countdown_sequence :
    c7Paused.isPaused = true ∧ c7Paused.countdown = 0 ∧
    c7Unpaused.isPaused = false ∧ c7Unpaused.countdown = 3 ∧
    c7Unpaused.countdownTime = 10000 ∧
    c7T1.countdown = 2 ∧ c7T1.gameTime = 0 ∧
    c7T2.countdown = 1 ∧ c7T2.gameTime = 0 ∧
    c7T3.countdown = 0 ∧ c7T3.gameTime = 0 ∧
    0 < c7T4.gameTime := by
  have h3 : c7T3.countdown = 0 := by
    show (Tick.apply { c7Unpaused with time := 13000 }).countdown = 0
    rw [c7_tick_countdown]
    norm_num
  refine ⟨rfl, rfl, rfl, rfl, rfl, ?_, rfl, ?_, rfl, h3, rfl, ?_⟩
  · show (Tick.apply { c7Unpaused with time := 11000 }).countdown = 2
    rw [c7_tick_countdown]
    norm_num
  · show (Tick.apply { c7Unpaused with time := 12000 }).countdown = 1
    rw [c7_tick_countdown]
    norm_num
  · show 0 < (Tick.apply c7T3).gameTime
    rw [tick_apply_gameTime c7T3 rfl rfl rfl h3]
    norm_num [tickNewGameTime, Constants.TICK_RATE_MS,
      show c7T3.gameTime = 0 from rfl]

/-! ### Claim C8 -/

/-- C8: restart preservation.  Restarting with a non-empty position trace
appends exactly the entry `{birdPositions := currentRun, timestamp := time}`
to history, with an empty trace history is unchanged; `gameCount` increments
by one; both spawn queues become the input's `originalPipeSpawnQueue`; and
every other field equals the initial-state constant. -/
theorem C8_restart_preservation (s : State) :
    (s.currentRun ≠ [] →
      (Restart.apply s).gameHistory =
        s.gameHistory ++ [{ birdPositions := s.currentRun, timestamp := s.time }]) ∧
    (s.currentRun = [] → (Restart.apply s).gameHistory = s.gameHistory) ∧
    (Restart.apply s).gameCount = s.gameCount + 1 ∧
    (Restart.apply s).pipeSpawnQueue = s.originalPipeSpawnQueue ∧
    (Restart.apply s).originalPipeSpawnQueue = s.originalPipeSpawnQueue ∧
    (Restart.apply s).bird = initialState.bird ∧
    (Restart.apply s).pipes = initialState.pipes ∧
    (Restart.apply s).powerUps = initialState.powerUps ∧
    (Restart.apply s).score = initialState.score ∧
    (Restart.apply s).lives = initialState.lives ∧
    (Restart.apply s).gameEnd = initialState.gameEnd ∧
    (Restart.apply s).gameWon = initialState.gameWon ∧
    (Restart.apply s).gameStarted = initialState.gameStarted ∧
    (Restart.apply s).isPaused = initialState.isPaused ∧
    (Restart.apply s).countdown = initialState.countdown ∧
    (Restart.apply s).countdownTime = initialState.countdownTime ∧
    (Restart.apply s).time = initialState.time ∧
    (Restart.apply s).gameTime = initialState.gameTime ∧
    (Restart.apply s).currentRun = initialState.currentRun ∧
    (Restart.apply s).ghostBirds = initialState.ghostBirds ∧
    (Restart.apply s).rngSeed = initialState.rngSeed ∧
    (Restart.apply s).shrinkActive = initialState.shrinkActive ∧
    (Restart.apply s).shrinkEndTime = initialState.shrinkEndTime ∧
    (Restart.apply s).slowDownActive = initialState.slowDownActive ∧
    (Restart.apply s).slowDownEndTime = initialState.slowDownEndTime ∧
    (Restart.apply s).slowDownMultiplier = initialState.slowDownMultiplier ∧
    (Restart.apply s).powerUpsSpawned = initialState.powerUpsSpawned ∧
    (Restart.apply s).powerUpsCollected = initialState.powerUpsCollected ∧
    (Restart.apply s).pipeSpawnIndex = initialState.pipeSpawnIndex ∧
    (Restart.apply s).lastCollisionTime = initialState.lastCollisionTime ∧
    (Restart.apply s).lastCollisionPipeId = initialState.lastCollisionPipeId := by
  constructor
  · intro h
    have hl : 0 < s.currentRun.length := List.length_pos.mpr h
    simp [Restart.apply, hl]
  constructor
  · intro h
    simp [Restart.apply, h]
  repeat' apply And.intro
  all_goals rfl

/-- C8 witness: the theorem applied to a state with a non-empty recorded
run. -/
theorem C8_restart_preservation_witness :
    (Restart.apply c8State).gameHistory =
      c8State.gameHistory ++
        [{ birdPositions := c8State.currentRun, timestamp := c8State.time }] ∧
    (Restart.apply c8State).gameCount = c8State.gameCount + 1 :=
  ⟨(C8_restart_preservation c8State).1 (by decide),
    (C8_restart_preservation c8State).2.2.1⟩

/-! ### Claim C9 -/

/-- C9: ghost replay boundary.  With the game not started or an empty
history, `calculateGhostPositions` returns the empty list.  With the game
started, it returns exactly the per-entry lookups at the frame index: an
entry with N recorded positions contributes its position at the frame
exactly when the index is below N, and contributes nothing (its lookup is
`none`) once the index reaches N. -/
theorem C9_ghost_replay_boundary (hist : List GameHistory) (frame : ℕ) (st : State) :
    (st.gameStarted = false ∨ hist = [] → calculateGhostPositions hist frame st = []) ∧
    (st.gameStarted = true →
      calculateGhostPositions hist frame st =
        hist.filterMap (fun r => r.birdPositions.get? frame) ∧
      ∀ e ∈ hist,
        (∀ h : frame < e.birdPositions.length,
          e.birdPositions.get ⟨frame, h⟩ ∈ calculateGhostPositions hist frame st) ∧
        (e.birdPositions.length ≤ frame → e.birdPositions.get? frame = none)) := by
  have hmain : st.gameStarted = true →
      calculateGhostPositions hist frame st =
        hist.filterMap fun r => r.birdPositions.get? frame := by
    intro hs
    unfold calculateGhostPositions
    rw [hs]
    cases hist with
    | nil => rfl
    | cons a t =>
        rw [if_neg (by simp), List.filterMap_map]
        rfl
  constructor
  · rintro (h | h)
    · simp [calculateGhostPositions, h]
    · simp [calculateGhostPositions, h]
  · intro hs
    refine ⟨hmain hs, ?_⟩
    intro e he
    constructor
    · intro h
      rw [hmain hs]
      exact List.mem_filterMap.mpr ⟨e, he, List.get?_eq_get h⟩
    · intro h
      exact List.get?_eq_none.mpr h

/-- C9 witness: in a one-entry history with two recorded positions, frame 1
yields that entry's second position among the ghosts. -/
theorem C9_ghost_replay_boundary_witness :
    c9Entry.birdPositions.get ⟨1, by decide⟩ ∈ calculateGhostPositions c9History 1 c9State :=
  (((C9_ghost_replay_boundary c9History 1 c9State).2 rfl).2 c9Entry
    (List.mem_cons_self c9Entry [])).1 (by decide)

/-! ### Claim C10 -/

/-- C10: a fully consumed (or empty) obstacle schedule ends the run as won.
For every running, non-paused, non-countdown state whose spawn index has
consumed the whole spawn queue, with no pipes on screen, positive lives, and
no fatal collision this tick (damage, if any, leaves at least one life), one
Tick yields `gameEnd = true` and `gameWon = true`. -/
theorem C10_empty_schedule_victory (s : State) (hEnd : s.gameEnd = false)
    (hStart : s.gameStarted = true) (hPaused : s.isPaused = false)
    (hCd : s.countdown = 0)
    (hQ : (s.pipeSpawnQueue.length : ℤ) ≤ s.pipeSpawnIndex)
    (hPipes : s.pipes = [])
    (hLive : 0 < s.lives)
    (hNoFatal : tickHasDamageCollision s = true → 1 < s.lives) :
    (Tick.apply s).gameEnd = true ∧ (Tick.apply s).gameWon = true := by
  have hScored : tickScoredPipes s = [] := by
    unfold tickScoredPipes tickScoreResult tickCleanedPipes tickMovedPipes
    rw [hPipes]
    rfl
  have hCleared : tickAllPipesCleared s = true := by
    unfold tickAllPipesCleared
    rw [hScored]
    simp [hQ]
  have hNewLives : 0 < tickNewLives s := by
    unfold tickNewLives
    by_cases hd : tickHasDamageCollision s = true
    · rw [if_pos hd, tickBaseState_lives]
      have := hNoFatal hd
      omega
    · rw [if_neg hd, tickBaseState_lives]
      exact hLive
  rw [tick_apply_of_flags s hEnd hStart hPaused hCd]
  by_cases hp : tickHasPhysicalCollision s = true
  · rw [if_pos hp]
    constructor
    · rw [tickCollisionResult_gameEnd, hCleared]
      rfl
    · rw [tickCollisionResult_gameWon, hCleared]
      simp [hNewLives]
  · rw [if_neg hp]
    exact ⟨by rw [tickBaseState_gameEnd, hCleared],
      by rw [tickBaseState_gameWon, hCleared]⟩

/-- C10 witness: a started initial state (empty schedule, no pipes) ends won
after one tick. -/
theorem C10_empty_schedule_victory_witness :
    (Tick.apply c10State).gameEnd = true ∧ (Tick.apply c10State).gameWon = true :=
  C10_empty_schedule_victory c10State rfl rfl rfl rfl (by decide) rfl (by decide)
    (fun _ => by decide)

end FlappyBird
